import Mathlib

/-!
Shallow embedding of the blood-bank inventory/reservation subsystem:
routers `inventory_enhanced.py`, `requests.py` (issuance endpoints) and
`quarantine.py`.  The document store is modelled as lists of records;
Mongo `find_one` is `List.find?`, `update_one` updates the first match,
`update_many` maps over all matches, `insert_one` appends.  ISO
timestamps (compared lexicographically by Mongo, monotone in time) are
modelled as integers; one hour is the constant `hour`.
-/

/-- A blood unit or component document (the fields the inventory
subsystem reads or writes).  `altId` is the human-readable id
(`unit_id` for units, `component_id` for components). -/
structure Item where
  id : String
  altId : String
  status : String
  component_type : Option String
  storage_location_id : Option String
  storage_location : Option String
  reserved_for : Option String
  reserved_until : Option Int
  reserved_request_id : Option String
  reserved_by : Option String
  reserved_at : Option Int
  reservation_notes : Option String
  updated_at : Int
deriving Repr, DecidableEq

/-- A storage-location document. -/
structure Storage where
  id : String
  location_code : String
  storage_name : String
  storage_type : String
  capacity : Int
  current_occupancy : Int
  temp_min : Option Int
  temp_max : Option Int
deriving Repr, DecidableEq

/-- A chain-of-custody event (collection `chain_custody`). -/
structure CustodyEvent where
  unit_id : String
  item_type : String
  stage : String
  from_location : String
  to_location : String
  reason : String
  giver_id : String
  receiver_id : String
  timestamp : Int
  confirmed : Bool
  notes : Option String
deriving Repr, DecidableEq

/-- A blood-request document (the fields `create_issuance` reads). -/
structure RequestDoc where
  id : String
  request_id : String
  status : String
deriving Repr, DecidableEq

/-- An issuance document. -/
structure IssuanceDoc where
  id : String
  issue_id : String
  request_id : String
  component_ids : List String
  status : String
  pick_timestamp : Option Int
  ship_timestamp : Option Int
  issued_by : Option String
deriving Repr, DecidableEq

/-- A quarantine record (the fields `resolve_quarantine` reads/writes). -/
structure QuarantineDoc where
  id : String
  unit_type : String
  unit_component_id : String
  disposition : Option String
  retest_result : Option String
  resolved_by : Option String
deriving Repr, DecidableEq

/-- The document store. -/
structure DB where
  blood_units : List Item
  components : List Item
  storage_locations : List Storage
  chain_custody : List CustodyEvent
  blood_requests : List RequestDoc
  issuances : List IssuanceDoc
  quarantine : List QuarantineDoc
deriving Repr, DecidableEq

/-- Mongo query `{"$or": [{"id": x}, {"unit_id"/"component_id": x}]}` on items. -/
def matchesId (x : String) (i : Item) : Bool :=
  i.id == x || i.altId == x

/-- Mongo query `{"$or": [{"id": x}, {"location_code": x}]}` on storage. -/
def matchesStorage (x : String) (s : Storage) : Bool :=
  s.id == x || s.location_code == x

/-- `update_one`: apply `f` to the first element satisfying `p`. -/
def updateFirst (p : α → Bool) (f : α → α) : List α → List α
  | [] => []
  | x :: xs => if p x then f x :: xs else x :: updateFirst p f xs

/-- `collection = db.blood_units if item_type == "unit" else db.components`. -/
def DB.collection (db : DB) (item_type : String) : List Item :=
  if item_type == "unit" then db.blood_units else db.components

/-- Write back the collection selected by `item_type`. -/
def DB.setCollection (db : DB) (item_type : String) (l : List Item) : DB :=
  if item_type == "unit" then { db with blood_units := l } else { db with components := l }

/-- One hour of model time (seconds). -/
def hour : Int := 3600

/- ============ STORAGE TEMPERATURE COMPATIBILITY ============ -/

/-- A required temperature band plus acceptable storage-type substrings. -/
structure TempReq where
  min : Int
  max : Int
  compatible_types : List String
deriving Repr, DecidableEq

/-- The `STORAGE_TEMP_REQUIREMENTS` table. -/
def STORAGE_TEMP_REQUIREMENTS (ct : String) : Option TempReq :=
  if ct == "prc" then some ⟨2, 6, ["refrigerator", "blood_fridge"]⟩
  else if ct == "whole_blood" then some ⟨2, 6, ["refrigerator", "blood_fridge"]⟩
  else if ct == "plasma" then some ⟨-30, -18, ["freezer", "plasma_freezer"]⟩
  else if ct == "ffp" then some ⟨-30, -18, ["freezer", "plasma_freezer"]⟩
  else if ct == "platelets" then some ⟨20, 24, ["platelet_agitator", "room_temp"]⟩
  else if ct == "cryoprecipitate" then some ⟨-30, -18, ["freezer", "plasma_freezer"]⟩
  else none

/-- Python `str.lower`. -/
def strLower (s : String) : String := ⟨s.data.map Char.toLower⟩

/-- Does `needle` occur at the head of `hay`? -/
def leadsWith : List Char → List Char → Bool
  | [], _ => true
  | _ :: _, [] => false
  | a :: as, b :: bs => a == b && leadsWith as bs

/-- Python `needle in hay` on strings: contiguous-subsequence test. -/
def containsSeq (needle : List Char) : List Char → Bool
  | [] => leadsWith needle []
  | c :: t => leadsWith needle (c :: t) || containsSeq needle t

/-- `is_temp_compatible` from `inventory_enhanced.py`: substring match on
the storage-type name, else band overlap when both bounds are declared,
else fail open. -/
def is_temp_compatible (component_type : String) (storage : Storage) : Bool :=
  match STORAGE_TEMP_REQUIREMENTS (strLower component_type) with
  | none => true
  | some req =>
    let storage_type := strLower storage.storage_type
    if req.compatible_types.any (fun ct => containsSeq ct.toList storage_type.toList) then
      true
    else
      match storage.temp_min, storage.temp_max with
      | some smin, some smax => decide (smin ≤ req.max) && decide (smax ≥ req.min)
      | _, _ => true

/-- `get_expiry_category` from `inventory_enhanced.py`. -/
def get_expiry_category (days_remaining : Int) : String :=
  if days_remaining < 0 then "expired"
  else if days_remaining < 3 then "critical"
  else if days_remaining < 7 then "warning"
  else if days_remaining < 14 then "caution"
  else "normal"

/- ============ RESERVE SYSTEM ============ -/

/-- The per-item result lists of a batch call: `(state, succeeded, failed)`. -/
def BatchAcc := DB × List String × List (String × String)

/-- Result of `reserve_items`. -/
structure ReserveResult where
  reserved : List String
  failed : List (String × String)
  reserved_until : Int
deriving Repr, DecidableEq

/-- The loop body of `reserve_items`: fails with "Not found" for a
missing item, with a status-mismatch reason for a non-`ready_to_use`
item, otherwise writes status `reserved` plus reservation metadata and
appends a "Reservation" custody event. -/
def reserveStep (item_type reserved_for : String) (request_id notes : Option String)
    (actor : String) (now untilT : Int)
    (acc : DB × List String × List (String × String)) (item_id : String) :
    DB × List String × List (String × String) :=
  let db := acc.1
  let res := acc.2.1
  let fai := acc.2.2
  match (db.collection item_type).find? (matchesId item_id) with
  | none => (db, res, fai ++ [(item_id, "Not found")])
  | some item =>
    if item.status != "ready_to_use" then
      (db, res, fai ++ [(item_id, "Cannot reserve - current status: " ++ item.status)])
    else
      let coll := updateFirst (matchesId item_id) (fun it =>
        { it with status := "reserved", reserved_for := some reserved_for,
                  reserved_until := some untilT, reserved_request_id := request_id,
                  reserved_by := some actor, reserved_at := some now,
                  reservation_notes := notes, updated_at := now }) (db.collection item_type)
      let db1 := db.setCollection item_type coll
      let ev : CustodyEvent := {
        unit_id := item.id, item_type := item_type, stage := "Reservation",
        from_location := item.storage_location.getD "Unknown",
        to_location := item.storage_location.getD "Reserved",
        reason := "Reserved for: " ++ reserved_for,
        giver_id := actor, receiver_id := actor, timestamp := now,
        confirmed := true, notes := notes }
      ({ db1 with chain_custody := db1.chain_custody ++ [ev] }, res ++ [item_id], fai)

/-- `reserve_items` (`POST /inventory-enhanced/reserve`): defaults the
hold to 24 hours from call time, then processes each id independently. -/
def reserve_items (db : DB) (item_ids : List String) (item_type : String)
    (request_id : Option String) (reserved_for : String) (reserved_until : Option Int)
    (notes : Option String) (actor : String) (now : Int) : DB × ReserveResult :=
  let untilT := reserved_until.getD (now + 24 * hour)
  let acc := item_ids.foldl (reserveStep item_type reserved_for request_id notes actor now untilT)
    (db, [], [])
  (acc.1, ⟨acc.2.1, acc.2.2, untilT⟩)

/-- `release_reservation` (`POST /inventory-enhanced/reserve/.../release`):
404 when absent, 400 when not `reserved`, else back to `ready_to_use`
with all reservation fields unset and a "Reservation Release" custody
event. -/
def release_reservation (db : DB) (item_id : String) (item_type : String)
    (actor : String) (now : Int) : Except (Nat × String) DB :=
  match (db.collection item_type).find? (matchesId item_id) with
  | none => .error (404, "Item not found")
  | some item =>
    if item.status != "reserved" then .error (400, "Item is not currently reserved")
    else
      let coll := updateFirst (matchesId item_id) (fun it =>
        { it with status := "ready_to_use", updated_at := now,
                  reserved_for := none, reserved_until := none,
                  reserved_request_id := none, reserved_by := none,
                  reserved_at := none, reservation_notes := none }) (db.collection item_type)
      let db1 := db.setCollection item_type coll
      let ev : CustodyEvent := {
        unit_id := item.id, item_type := item_type, stage := "Reservation Release",
        from_location := "Reserved",
        to_location := item.storage_location.getD "Available",
        reason := "Reservation released",
        giver_id := actor, receiver_id := actor, timestamp := now,
        confirmed := true, notes := none }
      .ok { db1 with chain_custody := db1.chain_custody ++ [ev] }

/-- The sweep filter `{"status": "reserved", "reserved_until": {"$lt": now}}`. -/
def isExpiredReserved (now : Int) (i : Item) : Bool :=
  i.status == "reserved" &&
    (match i.reserved_until with
     | some t => decide (t < now)
     | none => false)

/-- The sweep update: back to `ready_to_use`, reservation fields unset. -/
def releaseItem (now : Int) (i : Item) : Item :=
  { i with status := "ready_to_use", updated_at := now,
           reserved_for := none, reserved_until := none,
           reserved_request_id := none, reserved_by := none,
           reserved_at := none, reservation_notes := none }

/-- `update_many` of the auto-release sweep over one collection. -/
def sweepList (now : Int) (l : List Item) : List Item :=
  l.map (fun i => if isExpiredReserved now i then releaseItem now i else i)

/-- Counters returned by the sweep. -/
structure SweepResult where
  units_released : Nat
  components_released : Nat
  total_released : Nat
deriving Repr, DecidableEq

/-- `auto_release_expired_reservations`
(`POST /inventory-enhanced/reserve/auto-release`): admin/inventory only;
bulk-releases every reserved item whose hold expired before `now`. -/
def auto_release_expired_reservations (db : DB) (role : String) (now : Int) :
    Except (Nat × String) (DB × SweepResult) :=
  if role != "admin" && role != "inventory" then
    .error (403, "Insufficient permissions")
  else
    let uC := (db.blood_units.filter (isExpiredReserved now)).length
    let cC := (db.components.filter (isExpiredReserved now)).length
    .ok ({ db with blood_units := sweepList now db.blood_units,
                   components := sweepList now db.components },
         ⟨uC, cC, uC + cC⟩)

/- ============ MOVE/TRANSFER ============ -/

/-- Result of `move_items`. -/
structure MoveResult where
  moved : List String
  failed : List (String × String)
  destination : String
deriving Repr, DecidableEq

/-- `$inc` of `current_occupancy` on the storage document with id `sid`. -/
def incOccupancy (sid : String) (d : Int) (l : List Storage) : List Storage :=
  updateFirst (fun s => s.id == sid)
    (fun s => { s with current_occupancy := s.current_occupancy + d }) l

/-- The loop body of `move_items`: fails for a missing item or a
temperature-incompatible destination; otherwise updates the storage
reference, adjusts the two occupancy counters and appends a
"Storage Transfer" custody event — with no precondition on the item's
status. -/
def moveStep (item_type : String) (dest : Storage) (reason : String) (notes : Option String)
    (actor : String) (now : Int)
    (acc : DB × List String × List (String × String)) (item_id : String) :
    DB × List String × List (String × String) :=
  let db := acc.1
  let mv := acc.2.1
  let fa := acc.2.2
  match (db.collection item_type).find? (matchesId item_id) with
  | none => (db, mv, fa ++ [(item_id, "Not found")])
  | some item =>
    let ctype := if item_type == "component" then item.component_type.getD "whole_blood"
                 else "whole_blood"
    if !(is_temp_compatible ctype dest) then
      (db, mv, fa ++ [(item_id, "Temperature incompatible")])
    else
      let old_location := item.storage_location.getD "Unknown"
      let old_storage_id := item.storage_location_id
      let coll := updateFirst (matchesId item_id) (fun it =>
        { it with storage_location_id := some dest.id,
                  storage_location := some dest.location_code,
                  updated_at := now }) (db.collection item_type)
      let db1 := db.setCollection item_type coll
      let locs := incOccupancy dest.id 1 db1.storage_locations
      let locs2 := match old_storage_id with
        | some sid => incOccupancy sid (-1) locs
        | none => locs
      let ev : CustodyEvent := {
        unit_id := item.id, item_type := item_type, stage := "Storage Transfer",
        from_location := old_location, to_location := dest.location_code,
        reason := reason, giver_id := actor, receiver_id := actor,
        timestamp := now, confirmed := true,
        notes := some (notes.getD ("Transfer reason: " ++ reason)) }
      ({ db1 with storage_locations := locs2,
                  chain_custody := db1.chain_custody ++ [ev] }, mv ++ [item_id], fa)

/-- The capacity-error detail string of `move_items`. -/
def insufficientCapacityMsg (available : Int) (n : Nat) : String :=
  "Insufficient capacity. Only " ++ toString available ++
    " slots available, trying to move " ++ toString n ++ " items."

/-- `move_items` (`POST /inventory-enhanced/move`): 404 for an unknown
destination; a batch-atomic capacity precheck that rejects the whole
call with 400 before any per-item processing; then per-item moves. -/
def move_items (db : DB) (item_ids : List String)
    (item_type destination_storage_id reason : String)
    (notes : Option String) (actor : String) (now : Int) :
    Except (Nat × String) (DB × MoveResult) :=
  match db.storage_locations.find? (matchesStorage destination_storage_id) with
  | none => .error (404, "Destination storage not found")
  | some dest =>
    let available := dest.capacity - dest.current_occupancy
    if (item_ids.length : Int) > available then
      .error (400, insufficientCapacityMsg available item_ids.length)
    else
      let acc := item_ids.foldl (moveStep item_type dest reason notes actor now) (db, [], [])
      .ok (acc.1, ⟨acc.2.1, acc.2.2, dest.storage_name⟩)

/- ============ ISSUANCE (requests.py) ============ -/

/-- Mongo query `{"$or": [{"id": x}, {"request_id": x}]}`. -/
def matchesRequest (x : String) (r : RequestDoc) : Bool :=
  r.id == x || r.request_id == x

/-- Mongo query `{"$or": [{"id": x}, {"issue_id": x}]}`. -/
def matchesIssuance (x : String) (i : IssuanceDoc) : Bool :=
  i.id == x || i.issue_id == x

/-- `create_issuance` (`POST /issuances`): requires an approved request,
inserts the issuance, then sets each named component's status to
`reserved` — and nothing else: no reservation metadata is written. -/
def create_issuance (db : DB) (request_id : String) (component_ids : List String)
    (new_id issue_id : String) (actor : String) (now : Int) :
    Except (Nat × String) DB :=
  match db.blood_requests.find? (matchesRequest request_id) with
  | none => .error (404, "Request not found")
  | some req =>
    if req.status != "approved" then .error (400, "Request must be approved first")
    else
      let iss : IssuanceDoc := {
        id := new_id, issue_id := issue_id, request_id := req.id,
        component_ids := component_ids, status := "picking",
        pick_timestamp := some now, ship_timestamp := none, issued_by := some actor }
      let db1 := { db with issuances := db.issuances ++ [iss] }
      let comps := component_ids.foldl (fun l cid =>
        updateFirst (matchesId cid) (fun it => { it with status := "reserved" }) l)
        db1.components
      .ok { db1 with components := comps }

/-- `ship_issuance` (`PUT /issuances/.../ship`): marks the issuance
shipped, sets each component's status to `issued` (reservation fields
are not touched), and marks the request fulfilled. -/
def ship_issuance (db : DB) (issue_id : String) (now : Int) :
    Except (Nat × String) DB :=
  match db.issuances.find? (matchesIssuance issue_id) with
  | none => .error (404, "Issuance not found")
  | some iss =>
    let isl := updateFirst (matchesIssuance issue_id)
      (fun i => { i with ship_timestamp := some now, status := "shipped" }) db.issuances
    let comps := iss.component_ids.foldl (fun l cid =>
      updateFirst (matchesId cid) (fun it => { it with status := "issued" }) l)
      db.components
    let reqs := updateFirst (fun r => r.id == iss.request_id)
      (fun r => { r with status := "fulfilled" }) db.blood_requests
    .ok { db with issuances := isl, components := comps, blood_requests := reqs }

/- ============ QUARANTINE (quarantine.py) ============ -/

/-- `resolve_quarantine` (`PUT /quarantine/.../resolve`): records the
disposition and sets the target item's status to `ready_to_use` on
`release`, else `discarded`. -/
def resolve_quarantine (db : DB) (quarantine_id retest_result disposition : String)
    (role actor : String) (now : Int) : Except (Nat × String) DB :=
  if role != "admin" && role != "qc_manager" && role != "lab_tech" then
    .error (403, "Insufficient permissions")
  else
    match db.quarantine.find? (fun q => q.id == quarantine_id) with
    | none => .error (404, "Quarantine record not found")
    | some q =>
      let ql := updateFirst (fun r => r.id == quarantine_id)
        (fun r => { r with retest_result := some retest_result,
                           disposition := some disposition,
                           resolved_by := some actor }) db.quarantine
      let db1 := { db with quarantine := ql }
      let new_status := if disposition == "release" then "ready_to_use" else "discarded"
      if q.unit_type == "unit" then
        let units := updateFirst (fun i => i.id == q.unit_component_id)
          (fun it => { it with status := new_status, updated_at := now }) db1.blood_units
        .ok { db1 with blood_units := units }
      else
        let comps := updateFirst (fun i => i.id == q.unit_component_id)
          (fun it => { it with status := new_status }) db1.components
        .ok { db1 with components := comps }

/- ============ GENERIC LEMMAS ABOUT THE STORE OPERATIONS ============ -/

theorem find?_updateFirst (p : α → Bool) (f : α → α)
    (hf : ∀ x, p (f x) = p x) (l : List α) :
    (updateFirst p f l).find? p = (l.find? p).map f := by
  induction l with
  | nil => simp [updateFirst]
  | cons x xs ih =>
    by_cases hx : p x = true
    · simp [updateFirst, hx, List.find?_cons, hf]
    · simp only [Bool.not_eq_true] at hx
      simp [updateFirst, hx, List.find?_cons, ih]

theorem mem_updateFirst (p : α → Bool) (f : α → α) (l : List α) :
    ∀ y ∈ updateFirst p f l, y ∈ l ∨ ∃ x ∈ l, y = f x := by
  induction l with
  | nil => intro y hy; simp [updateFirst] at hy
  | cons x xs ih =>
    intro y hy
    by_cases hx : p x = true
    · simp [updateFirst, hx] at hy
      rcases hy with hy | hy
      · exact Or.inr ⟨x, by simp, hy⟩
      · exact Or.inl (by simp [hy])
    · simp only [Bool.not_eq_true] at hx
      simp [updateFirst, hx] at hy
      rcases hy with hy | hy
      · exact Or.inl (by simp [hy])
      · rcases ih y hy with h | ⟨z, hz, hyz⟩
        · exact Or.inl (List.mem_cons_of_mem _ h)
        · exact Or.inr ⟨z, List.mem_cons_of_mem _ hz, hyz⟩

theorem forall_mem_updateFirst {P : α → Prop} (p : α → Bool) (f : α → α) (l : List α)
    (h : ∀ x ∈ l, P x) (hfp : ∀ x ∈ l, P (f x)) : ∀ y ∈ updateFirst p f l, P y := by
  intro y hy
  rcases mem_updateFirst p f l y hy with h1 | ⟨x, hx, rfl⟩
  · exact h y h1
  · exact hfp x hx

theorem foldl_preserve (P : β → Prop) (f : β → α → β)
    (hf : ∀ b x, P b → P (f b x)) : ∀ (l : List α) (b : β), P b → P (l.foldl f b)
  | [], _, hb => hb
  | x :: l, b, hb => foldl_preserve P f hf l (f b x) (hf b x hb)

theorem filter_nil_of_all {p : α → Bool} {l : List α}
    (h : ∀ x ∈ l, p x = false) : l.filter p = [] := by
  rw [List.filter_eq_nil_iff]
  intro a ha
  simp [h a ha]

theorem collection_setCollection (db : DB) (it : String) (l : List Item) :
    (db.setCollection it l).collection it = l := by
  unfold DB.collection DB.setCollection
  by_cases h : it == "unit" <;> simp [h]

theorem chain_custody_setCollection (db : DB) (it : String) (l : List Item) :
    (db.setCollection it l).chain_custody = db.chain_custody := by
  unfold DB.setCollection
  by_cases h : it == "unit" <;> simp [h]

/-- `matchesId` is blind to every field except `id`/`altId`, so any
update function that keeps those two fields preserves it. -/
theorem matchesId_of_same_ids (x : String) (f : Item → Item)
    (hid : ∀ i, (f i).id = i.id) (halt : ∀ i, (f i).altId = i.altId) (i : Item) :
    matchesId x (f i) = matchesId x i := by
  simp [matchesId, hid, halt]

/- ============ C7: EXPIRY CLASSIFICATION ============ -/

/-- C7: expiry classification is a pure function of integer days-remaining:
negative days give "expired", under 3 "critical", under 7 "warning",
under 14 "caution", otherwise "normal"; in particular -1, 2, 6, 10, 20
map to the five categories in that order. -/
theorem C7_expiry_classification :
    (∀ d : Int, d < 0 → get_expiry_category d = "expired") ∧
    (∀ d : Int, 0 ≤ d → d < 3 → get_expiry_category d = "critical") ∧
    (∀ d : Int, 3 ≤ d → d < 7 → get_expiry_category d = "warning") ∧
    (∀ d : Int, 7 ≤ d → d < 14 → get_expiry_category d = "caution") ∧
    (∀ d : Int, 14 ≤ d → get_expiry_category d = "normal") ∧
    get_expiry_category (-1) = "expired" ∧
    get_expiry_category 2 = "critical" ∧
    get_expiry_category 6 = "warning" ∧
    get_expiry_category 10 = "caution" ∧
    get_expiry_category 20 = "normal" := by
  refine ⟨?_, ?_, ?_, ?_, ?_, by decide, by decide, by decide, by decide, by decide⟩ <;>
  · intro d
    intros
    unfold get_expiry_category
    repeat' split
    all_goals first | rfl | (exfalso; omega)

theorem C7_expiry_classification_witness :
    get_expiry_category (-1) = "expired" :=
  C7_expiry_classification.1 (-1) (by decide)

/- ============ C6: TEMPERATURE COMPATIBILITY ============ -/

/-- The claim's compatibility predicate, transcribed from the spec
sentence: compatible iff a storage-type-name substring matches, or both
temperature bounds are declared and the bands overlap; a component type
with no declared requirement is compatible with everything. -/
def spec_temp_compatible (component_type : String) (storage : Storage) : Bool :=
  match STORAGE_TEMP_REQUIREMENTS (strLower component_type) with
  | none => true
  | some req =>
    req.compatible_types.any
        (fun ct => containsSeq ct.toList (strLower storage.storage_type).toList)
      || (match storage.temp_min, storage.temp_max with
          | some smin, some smax => decide (smin ≤ req.max) && decide (smax ≥ req.min)
          | _, _ => false)

/-- The amended predicate: as the claim states it, plus fail open when
the destination does not declare both temperature bounds. -/
def spec_temp_compatible_amended (component_type : String) (storage : Storage) : Bool :=
  match STORAGE_TEMP_REQUIREMENTS (strLower component_type) with
  | none => true
  | some req =>
    req.compatible_types.any
        (fun ct => containsSeq ct.toList (strLower storage.storage_type).toList)
      || (match storage.temp_min, storage.temp_max with
          | some smin, some smax => decide (smin ≤ req.max) && decide (smax ≥ req.min)
          | _, _ => true)

/-- A destination whose type name matches no acceptable substring and
which declares no temperature bounds. -/
def caveStorage : Storage :=
  { id := "S9", location_code := "CAVE-1", storage_name := "Cave", storage_type := "cave",
    capacity := 10, current_occupancy := 0, temp_min := none, temp_max := none }

/-- C6 counterexample: for component type "prc" and a destination with
an unrecognized type name and no declared bounds, the code reports
compatible (fail open at the end of `is_temp_compatible`) while the
claim's if-and-only-if requires incompatible. -/
theorem C6_counterexample :
    is_temp_compatible "prc" caveStorage = true ∧
    spec_temp_compatible "prc" caveStorage = false := by
  constructor <;> decide

/-- C6 (amended): compatibility holds iff the component type has no
declared requirement, or a storage-type-name substring matches, or the
destination declares both bounds and the bands overlap, or the
destination does not declare both bounds (fail open). -/
theorem C6_temp_compatibility_amended (c : String) (s : Storage) :
    is_temp_compatible c s = spec_temp_compatible_amended c s := by
  unfold is_temp_compatible spec_temp_compatible_amended
  cases h : STORAGE_TEMP_REQUIREMENTS (strLower c) with
  | none => rfl
  | some req =>
    simp only
    cases hany : req.compatible_types.any
        (fun ct => containsSeq ct.toList (strLower s.storage_type).toList) with
    | true => simp [hany]
    | false =>
      simp only [hany, if_false, Bool.false_or]
      cases s.temp_min <;> cases s.temp_max <;> simp

/- ============ C2: MOVE CAPACITY PRECHECK ============ -/

/-- C2: when the batch size exceeds the destination's free capacity the
whole move call fails with HTTP 400 carrying the insufficient-capacity
message, before any per-item processing — no state is returned, so no
item record, occupancy counter or custody log is changed. -/
theorem C2_move_capacity_precheck (db : DB) (ids : List String)
    (it dsid rs : String) (no : Option String) (a : String) (now : Int) (dest : Storage)
    (hdest : db.storage_locations.find? (matchesStorage dsid) = some dest)
    (hcap : (ids.length : Int) > dest.capacity - dest.current_occupancy) :
    move_items db ids it dsid rs no a now =
      Except.error
        (400, insufficientCapacityMsg (dest.capacity - dest.current_occupancy) ids.length) := by
  unfold move_items
  rw [hdest]
  simp [hcap]

/-- The empty document store. -/
def emptyDB : DB := ⟨[], [], [], [], [], [], []⟩

/-- A full refrigerator: capacity 10, occupancy 10. -/
def fullStorage : Storage :=
  { id := "S1", location_code := "ST-A", storage_name := "Fridge A",
    storage_type := "refrigerator", capacity := 10, current_occupancy := 10,
    temp_min := some 2, temp_max := some 6 }

/-- A store holding only the full refrigerator. -/
def dbFull : DB := { emptyDB with storage_locations := [fullStorage] }

theorem C2_move_capacity_precheck_witness :
    move_items dbFull ["U1"] "unit" "S1" "space_mgmt" none "u1" 0 =
      Except.error (400, insufficientCapacityMsg 0 1) :=
  C2_move_capacity_precheck dbFull ["U1"] "unit" "S1" "space_mgmt" none "u1" 0 fullStorage
    (by decide) (by decide)

theorem collection_set_custody (db : DB) (it : String) (c : List CustodyEvent) :
    (({ db with chain_custody := c } : DB)).collection it = db.collection it := by
  unfold DB.collection
  by_cases h : it == "unit" <;> simp [h]

/- ============ C3: RESERVE PER-ITEM CONTRACT ============ -/

/-- C3: each id in a reserve call is evaluated independently against the
state current when it is processed: a missing item fails with
"Not found"; a non-`ready_to_use` item fails with a reason naming its
current status; a `ready_to_use` item gets status `reserved` with the
reservation metadata (`reserved_for`, `reserved_until`,
`reserved_request_id`, `reserved_by`) and a custody event with stage
"Reservation" is appended; `reserved_until` is the given value, or call
time plus 24 hours when omitted. -/
theorem C3_reserve_per_item (db : DB) (res : List String) (fai : List (String × String))
    (iid it rf : String) (rq no : Option String) (a : String) (now untilT : Int) :
    ((db.collection it).find? (matchesId iid) = none →
      reserveStep it rf rq no a now untilT (db, res, fai) iid =
        (db, res, fai ++ [(iid, "Not found")])) ∧
    (∀ item, (db.collection it).find? (matchesId iid) = some item →
      item.status ≠ "ready_to_use" →
      reserveStep it rf rq no a now untilT (db, res, fai) iid =
        (db, res, fai ++ [(iid, "Cannot reserve - current status: " ++ item.status)])) ∧
    (∀ item, (db.collection it).find? (matchesId iid) = some item →
      item.status = "ready_to_use" →
      ∃ db1, reserveStep it rf rq no a now untilT (db, res, fai) iid =
          (db1, res ++ [iid], fai) ∧
        (db1.collection it).find? (matchesId iid) =
          some { item with
                  status := "reserved",
                  reserved_for := some rf,
                  reserved_until := some untilT,
                  reserved_request_id := rq,
                  reserved_by := some a,
                  reserved_at := some now,
                  reservation_notes := no,
                  updated_at := now } ∧
        ∃ ev, db1.chain_custody = db.chain_custody ++ [ev] ∧ ev.stage = "Reservation") ∧
    (∀ ids, (reserve_items db ids it rq rf none no a now).2.reserved_until
        = now + 24 * hour) ∧
    (∀ ids u, (reserve_items db ids it rq rf (some u) no a now).2.reserved_until = u) := by
  refine ⟨?_, ?_, ?_, ?_, ?_⟩
  · intro hfind
    simp only [reserveStep, hfind]
  · intro item hfind hst
    simp only [reserveStep, hfind]
    rw [if_pos (by simp [hst])]
  · intro item hfind hst
    simp only [reserveStep, hfind, hst, bne_self_eq_false, Bool.false_eq_true, if_false]
    refine ⟨_, rfl, ?_, ?_⟩
    · rw [collection_set_custody, collection_setCollection]
      rw [find?_updateFirst]
      · rw [hfind]
        rfl
      · intro x
        rfl
    · refine ⟨{ unit_id := item.id,
                item_type := it,
                stage := "Reservation",
                from_location := item.storage_location.getD "Unknown",
                to_location := item.storage_location.getD "Reserved",
                reason := "Reserved for: " ++ rf,
                giver_id := a,
                receiver_id := a,
                timestamp := now,
                confirmed := true,
                notes := no }, ?_, rfl⟩
      simp [chain_custody_setCollection]
  · intro ids
    simp [reserve_items]
  · intro ids u
    simp [reserve_items]

/-- A component sitting ready in the refrigerator. -/
def compReady : Item :=
  { id := "c-1", altId := "C001", status := "ready_to_use",
    component_type := some "prc", storage_location_id := some "S1",
    storage_location := some "ST-A", reserved_for := none, reserved_until := none,
    reserved_request_id := none, reserved_by := none, reserved_at := none,
    reservation_notes := none, updated_at := 0 }

/-- A store holding only `compReady`. -/
def dbReady : DB := { emptyDB with components := [compReady] }

theorem C3_reserve_per_item_witness :
    ∃ db1, reserveStep "component" "Hospital X" none none "u1" 0 (0 + 24 * hour)
        (dbReady, [], []) "C001" = (db1, [] ++ ["C001"], []) ∧
      (db1.collection "component").find? (matchesId "C001") =
        some { compReady with
                status := "reserved",
                reserved_for := some "Hospital X",
                reserved_until := some (0 + 24 * hour),
                reserved_request_id := none,
                reserved_by := some "u1",
                reserved_at := some 0,
                reservation_notes := none,
                updated_at := 0 } ∧
      ∃ ev, db1.chain_custody = dbReady.chain_custody ++ [ev] ∧ ev.stage = "Reservation" :=
  (C3_reserve_per_item dbReady [] [] "C001" "component" "Hospital X" none none "u1" 0
    (0 + 24 * hour)).2.2.1 compReady (by decide) (by decide)

/- ============ C8: RESERVING AN ALREADY-RESERVED ITEM ============ -/

/-- C8: reserving an item whose status is already "reserved" always
yields a per-item failure with reason
"Cannot reserve - current status: reserved" and returns the store
unchanged — both for the loop step on any accumulated state and for a
whole call naming just that item. -/
theorem C8_reserve_already_reserved (db : DB) (res : List String)
    (fai : List (String × String)) (iid it rf : String) (rq no : Option String)
    (a : String) (now untilT : Int) (item : Item)
    (hfind : (db.collection it).find? (matchesId iid) = some item)
    (hst : item.status = "reserved") :
    reserveStep it rf rq no a now untilT (db, res, fai) iid =
      (db, res, fai ++ [(iid, "Cannot reserve - current status: reserved")]) ∧
    ∀ ru : Option Int, reserve_items db [iid] it rq rf ru no a now =
      (db, ⟨[], [(iid, "Cannot reserve - current status: reserved")],
            ru.getD (now + 24 * hour)⟩) := by
  have hstep : ∀ (res0 : List String) (fai0 : List (String × String)) (untilT0 : Int),
      reserveStep it rf rq no a now untilT0 (db, res0, fai0) iid =
        (db, res0, fai0 ++ [(iid, "Cannot reserve - current status: reserved")]) := by
    intro res0 fai0 untilT0
    simp only [reserveStep, hfind]
    rw [if_pos (by rw [hst]; rfl)]
    rw [hst]
    rfl
  refine ⟨hstep res fai untilT, ?_⟩
  intro ru
  simp only [reserve_items, List.foldl_cons, List.foldl_nil]
  rw [hstep]
  rfl

/-- The reserved counterpart of `compReady`. -/
def compReserved : Item :=
  { compReady with
      status := "reserved",
      reserved_for := some "Hospital X",
      reserved_until := some 100,
      reserved_request_id := none,
      reserved_by := some "u1",
      reserved_at := some 0,
      reservation_notes := none }

/-- A store holding only `compReserved`. -/
def dbReserved : DB := { emptyDB with components := [compReserved] }

theorem C8_reserve_already_reserved_witness :
    reserveStep "component" "Hospital Y" none none "u2" 50 86450
        (dbReserved, [], []) "C001" =
      (dbReserved, [], [("C001", "Cannot reserve - current status: reserved")]) :=
  (C8_reserve_already_reserved dbReserved [] [] "C001" "component" "Hospital Y"
    none none "u2" 50 86450 compReserved (by decide) (by decide)).1

/- ============ C9: RELEASE CONTRACT ============ -/

/-- C9: release fails with 404 when the item is absent, fails with 400
when its status is not "reserved" (no state is returned, so nothing
changes), and otherwise succeeds with the item set back to
`ready_to_use`, all reservation fields cleared, and a custody event with
stage "Reservation Release" appended. -/
theorem C9_release_contract (db : DB) (iid it a : String) (now : Int) :
    ((db.collection it).find? (matchesId iid) = none →
      release_reservation db iid it a now = Except.error (404, "Item not found")) ∧
    (∀ item, (db.collection it).find? (matchesId iid) = some item →
      item.status ≠ "reserved" →
      release_reservation db iid it a now =
        Except.error (400, "Item is not currently reserved")) ∧
    (∀ item, (db.collection it).find? (matchesId iid) = some item →
      item.status = "reserved" →
      ∃ db1, release_reservation db iid it a now = Except.ok db1 ∧
        (db1.collection it).find? (matchesId iid) =
          some { item with
                  status := "ready_to_use",
                  updated_at := now,
                  reserved_for := none,
                  reserved_until := none,
                  reserved_request_id := none,
                  reserved_by := none,
                  reserved_at := none,
                  reservation_notes := none } ∧
        ∃ ev, db1.chain_custody = db.chain_custody ++ [ev] ∧
          ev.stage = "Reservation Release") := by
  refine ⟨?_, ?_, ?_⟩
  · intro hfind
    simp only [release_reservation, hfind]
  · intro item hfind hst
    simp only [release_reservation, hfind]
    rw [if_pos (by simp [hst])]
  · intro item hfind hst
    simp only [release_reservation, hfind, hst, bne_self_eq_false,
      Bool.false_eq_true, if_false]
    refine ⟨_, rfl, ?_, ?_⟩
    · rw [collection_set_custody, collection_setCollection]
      rw [find?_updateFirst]
      · rw [hfind]
        rfl
      · intro x
        rfl
    · refine ⟨{ unit_id := item.id,
                item_type := it,
                stage := "Reservation Release",
                from_location := "Reserved",
                to_location := item.storage_location.getD "Available",
                reason := "Reservation released",
                giver_id := a,
                receiver_id := a,
                timestamp := now,
                confirmed := true,
                notes := none }, ?_, rfl⟩
      simp [chain_custody_setCollection]

theorem C9_release_contract_witness :
    ∃ db1, release_reservation dbReserved "C001" "component" "u1" 50 = Except.ok db1 ∧
      (db1.collection "component").find? (matchesId "C001") =
        some { compReserved with
                status := "ready_to_use",
                updated_at := 50,
                reserved_for := none,
                reserved_until := none,
                reserved_request_id := none,
                reserved_by := none,
                reserved_at := none,
                reservation_notes := none } ∧
      ∃ ev, db1.chain_custody = dbReserved.chain_custody ++ [ev] ∧
        ev.stage = "Reservation Release" :=
  (C9_release_contract dbReserved "C001" "component" "u1" 50).2.2 compReserved
    (by decide) (by decide)

/- ============ C5: SWEEP IDEMPOTENCE ============ -/

/-- After one sweep pass, no element still matches the sweep filter. -/
theorem sweep_elt_not_expired (now : Int) (i : Item) :
    isExpiredReserved now (if isExpiredReserved now i then releaseItem now i else i)
      = false := by
  by_cases h : isExpiredReserved now i = true
  · rw [if_pos h]
    simp [isExpiredReserved, releaseItem]
  · simp only [Bool.not_eq_true] at h
    rw [if_neg (by simp [h])]
    exact h

theorem sweepList_all_clear (now : Int) (l : List Item) :
    ∀ i ∈ sweepList now l, isExpiredReserved now i = false := by
  intro i hi
  rw [sweepList, List.mem_map] at hi
  obtain ⟨x, _, rfl⟩ := hi
  exact sweep_elt_not_expired now x

theorem sweepList_id_of_clear (now : Int) : ∀ l : List Item,
    (∀ i ∈ l, isExpiredReserved now i = false) → sweepList now l = l
  | [], _ => rfl
  | x :: xs, h => by
    have hx := h x (List.mem_cons_self x xs)
    have ih := sweepList_id_of_clear now xs (fun i hi => h i (List.mem_cons_of_mem x hi))
    simp only [sweepList, List.map_cons] at ih ⊢
    rw [hx, ih]
    simp

/-- C5: the auto-release sweep is idempotent at a fixed observation time:
a second run right after a successful one returns the same state and
reports zero units and zero components released, and every item that was
not an expired reservation (status not "reserved", or `reserved_until`
not in the past) survives any run unchanged. -/
theorem C5_sweep_idempotent (db : DB) (role : String) (now : Int) (db1 : DB)
    (r1 : SweepResult)
    (h : auto_release_expired_reservations db role now = Except.ok (db1, r1)) :
    auto_release_expired_reservations db1 role now = Except.ok (db1, ⟨0, 0, 0⟩) ∧
    (∀ i ∈ db.blood_units, isExpiredReserved now i = false → i ∈ db1.blood_units) ∧
    (∀ i ∈ db.components, isExpiredReserved now i = false → i ∈ db1.components) := by
  unfold auto_release_expired_reservations at h ⊢
  by_cases hrole : (role != "admin" && role != "inventory") = true
  · rw [if_pos hrole] at h
    exact absurd h (by simp)
  · rw [if_neg hrole] at h
    simp only [Except.ok.injEq, Prod.mk.injEq] at h
    obtain ⟨hdb, _⟩ := h
    subst hdb
    refine ⟨?_, ?_, ?_⟩
    · rw [if_neg hrole]
      have h1 : sweepList now (sweepList now db.blood_units) = sweepList now db.blood_units :=
        sweepList_id_of_clear now _ (sweepList_all_clear now _)
      have h2 : sweepList now (sweepList now db.components) = sweepList now db.components :=
        sweepList_id_of_clear now _ (sweepList_all_clear now _)
      have h3 : (sweepList now db.blood_units).filter (isExpiredReserved now) = [] :=
        filter_nil_of_all (sweepList_all_clear now _)
      have h4 : (sweepList now db.components).filter (isExpiredReserved now) = [] :=
        filter_nil_of_all (sweepList_all_clear now _)
      simp [h1, h2, h3, h4]
    · intro i hi hexp
      have hm : (if isExpiredReserved now i then releaseItem now i else i) ∈
          sweepList now db.blood_units :=
        List.mem_map_of_mem
          (fun j => if isExpiredReserved now j then releaseItem now j else j) hi
      rw [hexp] at hm
      simp only [Bool.false_eq_true, if_false] at hm
      exact hm
    · intro i hi hexp
      have hm : (if isExpiredReserved now i then releaseItem now i else i) ∈
          sweepList now db.components :=
        List.mem_map_of_mem
          (fun j => if isExpiredReserved now j then releaseItem now j else j) hi
      rw [hexp] at hm
      simp only [Bool.false_eq_true, if_false] at hm
      exact hm

/-- The store after sweeping `dbReserved` at time 200 (the reservation
of `compReserved` expires at 100). -/
def dbSwept : DB := { emptyDB with components := [releaseItem 200 compReserved] }

theorem C5_sweep_idempotent_witness :
    auto_release_expired_reservations dbSwept "admin" 200 =
      Except.ok (dbSwept, ⟨0, 0, 0⟩) :=
  (C5_sweep_idempotent dbReserved "admin" 200 dbSwept ⟨0, 1, 1⟩ (by rfl)).1

/- ============ C10: MOVE HAS NO STATUS PRECONDITION ============ -/

theorem collection_set_locs_custody (db : DB) (it : String) (ls : List Storage)
    (c : List CustodyEvent) :
    (({ db with storage_locations := ls, chain_custody := c } : DB)).collection it
      = db.collection it := by
  unfold DB.collection
  by_cases h : it == "unit" <;> simp [h]

/-- Every per-item failure a move step can add carries the reason
"Not found" or "Temperature incompatible" — there is no status check. -/
theorem moveStep_failed_reasons (it : String) (dest : Storage) (rs : String)
    (no : Option String) (a : String) (now : Int)
    (acc : DB × List String × List (String × String)) (iid : String)
    (h : ∀ p ∈ acc.2.2, p.2 = "Not found" ∨ p.2 = "Temperature incompatible") :
    ∀ p ∈ (moveStep it dest rs no a now acc iid).2.2,
      p.2 = "Not found" ∨ p.2 = "Temperature incompatible" := by
  obtain ⟨db0, mv0, fa0⟩ := acc
  intro p hp
  cases hfind : (db0.collection it).find? (matchesId iid) with
  | none =>
    simp only [moveStep, hfind, List.mem_append, List.mem_singleton] at hp
    rcases hp with hp | hp
    · exact h p hp
    · rw [hp]
      exact Or.inl rfl
  | some item =>
    by_cases hcomp : (!(is_temp_compatible
        (if it == "component" then item.component_type.getD "whole_blood"
         else "whole_blood") dest)) = true
    · simp only [moveStep, hfind] at hp
      rw [if_pos hcomp] at hp
      simp only [List.mem_append, List.mem_singleton] at hp
      rcases hp with hp | hp
      · exact h p hp
      · rw [hp]
        exact Or.inr rfl
    · simp only [moveStep, hfind] at hp
      rw [if_neg hcomp] at hp
      exact h p hp

/-- C10: the move loop imposes no status precondition: any existing,
temperature-compatible item is moved — its storage reference is updated
and a "Storage Transfer" custody event is appended — whatever its
current status (including "reserved", "issued" and "discarded"), and the
per-item failures of a whole successful move call only ever carry the
reasons "Not found" or "Temperature incompatible", never a status
mismatch. -/
theorem C10_move_no_status_precondition (it : String) (dest : Storage) (rs : String)
    (no : Option String) (a : String) (now : Int) :
    (∀ (db : DB) (mv : List String) (fa : List (String × String)) (iid : String)
        (item : Item),
      (db.collection it).find? (matchesId iid) = some item →
      is_temp_compatible
          (if it == "component" then item.component_type.getD "whole_blood"
           else "whole_blood") dest = true →
      ∃ db1, moveStep it dest rs no a now (db, mv, fa) iid = (db1, mv ++ [iid], fa) ∧
        (db1.collection it).find? (matchesId iid) =
          some { item with
                  storage_location_id := some dest.id,
                  storage_location := some dest.location_code,
                  updated_at := now } ∧
        ∃ ev, db1.chain_custody = db.chain_custody ++ [ev] ∧
          ev.stage = "Storage Transfer") ∧
    (∀ (db : DB) (ids : List String) (dsid : String) (db1 : DB) (r : MoveResult),
      move_items db ids it dsid rs no a now = Except.ok (db1, r) →
      ∀ p ∈ r.failed, p.2 = "Not found" ∨ p.2 = "Temperature incompatible") := by
  refine ⟨?_, ?_⟩
  · intro db mv fa iid item hfind hcompat
    simp only [moveStep, hfind, hcompat, Bool.not_true, Bool.false_eq_true, if_false]
    refine ⟨_, rfl, ?_, ?_⟩
    · rw [collection_set_locs_custody, collection_setCollection]
      rw [find?_updateFirst]
      · rw [hfind]
        rfl
      · intro x
        rfl
    · refine ⟨{ unit_id := item.id,
                item_type := it,
                stage := "Storage Transfer",
                from_location := item.storage_location.getD "Unknown",
                to_location := dest.location_code,
                reason := rs,
                giver_id := a,
                receiver_id := a,
                timestamp := now,
                confirmed := true,
                notes := some (no.getD ("Transfer reason: " ++ rs)) }, ?_, rfl⟩
      simp [chain_custody_setCollection]
  · intro db ids dsid db1 r hcall
    cases hdest : db.storage_locations.find? (matchesStorage dsid) with
    | none =>
      simp only [move_items, hdest] at hcall
      exact absurd hcall (by simp)
    | some d =>
      simp only [move_items, hdest] at hcall
      by_cases hcap : ((ids.length : Int) > d.capacity - d.current_occupancy)
      · rw [if_pos hcap] at hcall
        exact absurd hcall (by simp)
      · rw [if_neg hcap] at hcall
        simp only [Except.ok.injEq, Prod.mk.injEq] at hcall
        obtain ⟨_, hr⟩ := hcall
        subst hr
        exact foldl_preserve
          (fun acc => ∀ p ∈ acc.2.2,
            p.2 = "Not found" ∨ p.2 = "Temperature incompatible")
          (moveStep it d rs no a now)
          (moveStep_failed_reasons it d rs no a now)
          ids (db, [], []) (by intro p hp; exact absurd hp (by simp))

/-- A discarded whole-blood unit. -/
def unitDiscarded : Item :=
  { id := "u-9", altId := "U009", status := "discarded", component_type := none,
    storage_location_id := none, storage_location := some "ST-B",
    reserved_for := none, reserved_until := none, reserved_request_id := none,
    reserved_by := none, reserved_at := none, reservation_notes := none,
    updated_at := 0 }

/-- A store holding the discarded unit and the full refrigerator. -/
def dbDiscarded : DB :=
  { emptyDB with blood_units := [unitDiscarded], storage_locations := [fullStorage] }

theorem C10_move_no_status_precondition_witness :
    ∃ db1, moveStep "unit" fullStorage "space_mgmt" none "u1" 7
        (dbDiscarded, [], []) "U009" = (db1, [] ++ ["U009"], []) ∧
      (db1.collection "unit").find? (matchesId "U009") =
        some { unitDiscarded with
                storage_location_id := some fullStorage.id,
                storage_location := some fullStorage.location_code,
                updated_at := 7 } ∧
      ∃ ev, db1.chain_custody = dbDiscarded.chain_custody ++ [ev] ∧
        ev.stage = "Storage Transfer" :=
  (C10_move_no_status_precondition "unit" fullStorage "space_mgmt" none "u1" 7).1
    dbDiscarded [] [] "U009" unitDiscarded (by decide) (by decide)

/- ============ C1: RESERVED-IMPLIES-METADATA INVARIANT ============ -/

/-- The per-item invariant of C1: status "reserved" implies the three
reservation fields are set. -/
def reservedOk (i : Item) : Prop :=
  i.status = "reserved" →
    i.reserved_for.isSome ∧ i.reserved_until.isSome ∧ i.reserved_by.isSome

instance (i : Item) : Decidable (reservedOk i) := by
  unfold reservedOk
  infer_instance

/-- The store-wide invariant of C1, over both item collections. -/
def DB.reservedInv (db : DB) : Prop :=
  (∀ i ∈ db.blood_units, reservedOk i) ∧ (∀ i ∈ db.components, reservedOk i)

instance (db : DB) : Decidable db.reservedInv := by
  unfold DB.reservedInv
  infer_instance

/-- An approved blood request. -/
def reqApproved : RequestDoc := { id := "r-1", request_id := "R1", status := "approved" }

/-- A store with one ready component and one approved request. -/
def dbPick : DB :=
  { emptyDB with components := [compReady], blood_requests := [reqApproved] }

/-- C1 counterexample: issuance pick (`create_issuance`) sets the
component's status to "reserved" without writing `reserved_for`,
`reserved_until` or `reserved_by`, so a state satisfying the invariant
reaches one that violates it. -/
theorem C1_counterexample :
    DB.reservedInv dbPick ∧
    ∃ db1, create_issuance dbPick "R1" ["C001"] "i-1" "ISS1" "u1" 0 = Except.ok db1 ∧
      ¬ DB.reservedInv db1 := by
  exact ⟨by decide, ⟨_, rfl, by decide⟩⟩

theorem reservedInv_collection (db : DB) (it : String) (h : db.reservedInv) :
    ∀ i ∈ db.collection it, reservedOk i := by
  unfold DB.collection
  by_cases hit : (it == "unit") = true
  · rw [if_pos hit]
    exact h.1
  · rw [if_neg hit]
    exact h.2

theorem reservedInv_setCollection (db : DB) (it : String) (l : List Item)
    (h : db.reservedInv) (hl : ∀ i ∈ l, reservedOk i) :
    (db.setCollection it l).reservedInv := by
  unfold DB.setCollection
  by_cases hit : (it == "unit") = true
  · rw [if_pos hit]
    exact ⟨hl, h.2⟩
  · rw [if_neg hit]
    exact ⟨h.1, hl⟩

/-- The loop step of reserve keeps the C1 invariant: a reserved status is
always written together with the three metadata fields. -/
theorem reserveStep_preserves_inv (it rf : String) (rq no : Option String)
    (a : String) (now untilT : Int)
    (acc : DB × List String × List (String × String)) (iid : String)
    (h : acc.1.reservedInv) :
    (reserveStep it rf rq no a now untilT acc iid).1.reservedInv := by
  obtain ⟨db0, mv0, fa0⟩ := acc
  cases hfind : (db0.collection it).find? (matchesId iid) with
  | none =>
    simp only [reserveStep, hfind]
    exact h
  | some item =>
    simp only [reserveStep, hfind]
    by_cases hst : (item.status != "ready_to_use") = true
    · rw [if_pos hst]
      exact h
    · rw [if_neg hst]
      exact reservedInv_setCollection db0 it _ h
        (forall_mem_updateFirst _ _ _ (reservedInv_collection db0 it h)
          (fun x _ => fun _ => ⟨rfl, rfl, rfl⟩))

/-- Any sweep pass keeps the C1 invariant: released items leave the
"reserved" status, untouched items carry their old invariant. -/
theorem sweepList_preserves_ok (now : Int) (l : List Item)
    (h : ∀ i ∈ l, reservedOk i) : ∀ i ∈ sweepList now l, reservedOk i := by
  intro i hi
  rw [sweepList, List.mem_map] at hi
  obtain ⟨x, hx, rfl⟩ := hi
  by_cases hex : isExpiredReserved now x = true
  · rw [if_pos hex]
    intro hs
    exact absurd hs (show ("ready_to_use" : String) ≠ "reserved" by decide)
  · simp only [Bool.not_eq_true] at hex
    rw [if_neg (by simp [hex])]
    exact h x hx

/-- C1 (amended): the invariant "status reserved implies reserved_for,
reserved_until and reserved_by set" is preserved by reserve, release,
the auto-release sweep, move, issuance ship, and quarantine resolve.
Issuance pick (`create_issuance`) is the exception: it sets a
component's status to "reserved" without writing any reservation field,
breaking the invariant (see the counterexample). -/
theorem C1_reserved_invariant (db : DB) (h : db.reservedInv) :
    (∀ ids it rq rf ru no a now,
      ((reserve_items db ids it rq rf ru no a now).1).reservedInv) ∧
    (∀ iid it a now db1,
      release_reservation db iid it a now = Except.ok db1 → db1.reservedInv) ∧
    (∀ role now db1 r,
      auto_release_expired_reservations db role now = Except.ok (db1, r) →
      db1.reservedInv) ∧
    (∀ ids it dsid rs no a now db1 r,
      move_items db ids it dsid rs no a now = Except.ok (db1, r) →
      db1.reservedInv) ∧
    (∀ iss now db1, ship_issuance db iss now = Except.ok db1 → db1.reservedInv) ∧
    (∀ qid rr dsp role a now db1,
      resolve_quarantine db qid rr dsp role a now = Except.ok db1 →
      db1.reservedInv) := by
  refine ⟨?_, ?_, ?_, ?_, ?_, ?_⟩
  · intro ids it rq rf ru no a now
    exact foldl_preserve (fun acc => acc.1.reservedInv)
      (reserveStep it rf rq no a now (ru.getD (now + 24 * hour)))
      (reserveStep_preserves_inv it rf rq no a now (ru.getD (now + 24 * hour)))
      ids (db, [], []) h
  · intro iid it a now db1 hcall
    cases hfind : (db.collection it).find? (matchesId iid) with
    | none =>
      simp only [release_reservation, hfind] at hcall
      exact absurd hcall (by simp)
    | some item =>
      simp only [release_reservation, hfind] at hcall
      by_cases hst : (item.status != "reserved") = true
      · rw [if_pos hst] at hcall
        exact absurd hcall (by simp)
      · rw [if_neg hst] at hcall
        simp only [Except.ok.injEq] at hcall
        subst hcall
        exact reservedInv_setCollection db it _ h
          (forall_mem_updateFirst _ _ _ (reservedInv_collection db it h)
            (fun x _ => fun hs =>
              absurd hs (show ("ready_to_use" : String) ≠ "reserved" by decide)))
  · intro role now db1 r hcall
    unfold auto_release_expired_reservations at hcall
    by_cases hrole : (role != "admin" && role != "inventory") = true
    · rw [if_pos hrole] at hcall
      exact absurd hcall (by simp)
    · rw [if_neg hrole] at hcall
      simp only [Except.ok.injEq, Prod.mk.injEq] at hcall
      obtain ⟨hdb, _⟩ := hcall
      subst hdb
      exact ⟨sweepList_preserves_ok now _ h.1, sweepList_preserves_ok now _ h.2⟩
  · intro ids it dsid rs no a now db1 r hcall
    cases hdest : db.storage_locations.find? (matchesStorage dsid) with
    | none =>
      simp only [move_items, hdest] at hcall
      exact absurd hcall (by simp)
    | some d =>
      simp only [move_items, hdest] at hcall
      by_cases hcap : ((ids.length : Int) > d.capacity - d.current_occupancy)
      · rw [if_pos hcap] at hcall
        exact absurd hcall (by simp)
      · rw [if_neg hcap] at hcall
        simp only [Except.ok.injEq, Prod.mk.injEq] at hcall
        obtain ⟨hdb, _⟩ := hcall
        subst hdb
        refine foldl_preserve (fun acc => acc.1.reservedInv)
          (moveStep it d rs no a now) ?_ ids (db, [], []) h
        intro acc iid hacc
        obtain ⟨db0, mv0, fa0⟩ := acc
        cases hfind : (db0.collection it).find? (matchesId iid) with
        | none =>
          simp only [moveStep, hfind]
          exact hacc
        | some item =>
          simp only [moveStep, hfind]
          by_cases hcomp : (!(is_temp_compatible
              (if it == "component" then item.component_type.getD "whole_blood"
               else "whole_blood") d)) = true
          · rw [if_pos hcomp]
            exact hacc
          · rw [if_neg hcomp]
            exact reservedInv_setCollection db0 it _ hacc
              (forall_mem_updateFirst _ _ _ (reservedInv_collection db0 it hacc)
                (fun x hx => fun hs =>
                  reservedInv_collection db0 it hacc x hx hs))
  · intro iss now db1 hcall
    cases hfind : db.issuances.find? (matchesIssuance iss) with
    | none =>
      simp only [ship_issuance, hfind] at hcall
      exact absurd hcall (by simp)
    | some idoc =>
      simp only [ship_issuance, hfind] at hcall
      simp only [Except.ok.injEq] at hcall
      subst hcall
      refine ⟨h.1, ?_⟩
      refine foldl_preserve (fun l => ∀ i ∈ l, reservedOk i)
        (fun l cid => updateFirst (matchesId cid)
          (fun x => { x with status := "issued" }) l) ?_
        idoc.component_ids db.components h.2
      intro l cid hl
      exact forall_mem_updateFirst _ _ _ hl
        (fun x _ => fun hs =>
          absurd hs (show ("issued" : String) ≠ "reserved" by decide))
  · intro qid rr dsp role a now db1 hcall
    unfold resolve_quarantine at hcall
    by_cases hrole : (role != "admin" && role != "qc_manager" && role != "lab_tech") = true
    · rw [if_pos hrole] at hcall
      exact absurd hcall (by simp)
    · rw [if_neg hrole] at hcall
      cases hq : db.quarantine.find? (fun q => q.id == qid) with
      | none =>
        rw [hq] at hcall
        exact absurd hcall (by simp)
      | some q =>
        rw [hq] at hcall
        simp only at hcall
        by_cases hu : (q.unit_type == "unit") = true
        · rw [if_pos hu] at hcall
          simp only [Except.ok.injEq] at hcall
          subst hcall
          refine ⟨?_, h.2⟩
          refine forall_mem_updateFirst _ _ _ h.1 ?_
          intro x _
          intro hs
          by_cases hd : (dsp == "release") = true
          · rw [if_pos hd] at hs
            exact absurd hs (show ("ready_to_use" : String) ≠ "reserved" by decide)
          · rw [if_neg hd] at hs
            exact absurd hs (show ("discarded" : String) ≠ "reserved" by decide)
        · rw [if_neg hu] at hcall
          simp only [Except.ok.injEq] at hcall
          subst hcall
          refine ⟨h.1, ?_⟩
          refine forall_mem_updateFirst _ _ _ h.2 ?_
          intro x _
          intro hs
          by_cases hd : (dsp == "release") = true
          · rw [if_pos hd] at hs
            exact absurd hs (show ("ready_to_use" : String) ≠ "reserved" by decide)
          · rw [if_neg hd] at hs
            exact absurd hs (show ("discarded" : String) ≠ "reserved" by decide)

theorem C1_reserved_invariant_witness :
    DB.reservedInv dbReady ∧
    ((reserve_items dbReady ["C001"] "component" none "Hospital X" none none
        "u1" 0).1).reservedInv :=
  ⟨by decide, (C1_reserved_invariant dbReady (by decide)).1 ["C001"] "component"
    none "Hospital X" none none "u1" 0⟩

/- ============ C4: WHAT CLEARS RESERVATION FIELDS ============ -/

/-- An issuance in picking state naming the reserved component. -/
def issDoc : IssuanceDoc :=
  { id := "i-1", issue_id := "ISS1", request_id := "r-1",
    component_ids := ["C001"], status := "picking",
    pick_timestamp := some 0, ship_timestamp := none, issued_by := some "u1" }

/-- A store with the reserved component and its issuance. -/
def dbShip : DB := { emptyDB with components := [compReserved], issuances := [issDoc] }

/-- C4 counterexample: shipping an issuance takes the component out of
"reserved" (to "issued") but leaves `reserved_for`, `reserved_until` and
`reserved_by` exactly as they were — the claim says they are cleared. -/
theorem C4_counterexample :
    ∃ db1, ship_issuance dbShip "ISS1" 5 = Except.ok db1 ∧
      ∃ i, db1.components.find? (matchesId "C001") = some i ∧
        i.status = "issued" ∧ i.reserved_for = some "Hospital X" ∧
        i.reserved_until = some 100 ∧ i.reserved_by = some "u1" := by
  exact ⟨_, rfl, { compReserved with status := "issued" },
    by decide, by decide, by decide, by decide, by decide⟩

/-- Status-only updates of the ship loop keep each document's identity
and reservation fields. -/
theorem ship_components_fields (cids : List String) (base : List Item) :
    ∀ i ∈ cids.foldl (fun l cid => updateFirst (matchesId cid)
        (fun x => { x with status := "issued" }) l) base,
      ∃ j ∈ base, i.id = j.id ∧ i.reserved_for = j.reserved_for ∧
        i.reserved_until = j.reserved_until ∧
        i.reserved_request_id = j.reserved_request_id ∧
        i.reserved_by = j.reserved_by := by
  refine foldl_preserve
    (fun l => ∀ i ∈ l, ∃ j ∈ base, i.id = j.id ∧ i.reserved_for = j.reserved_for ∧
      i.reserved_until = j.reserved_until ∧
      i.reserved_request_id = j.reserved_request_id ∧ i.reserved_by = j.reserved_by)
    (fun l cid => updateFirst (matchesId cid)
      (fun x => { x with status := "issued" }) l) ?_ cids base ?_
  · intro l cid hl
    refine forall_mem_updateFirst _ _ _ hl ?_
    intro x hx
    obtain ⟨j, hj, h1, h2, h3, h4, h5⟩ := hl x hx
    exact ⟨j, hj, h1, h2, h3, h4, h5⟩
  · intro i hi
    exact ⟨i, hi, rfl, rfl, rfl, rfl, rfl⟩

/-- C4 (amended): explicit release and the expiry sweep clear the
reservation fields (`reserved_for`, `reserved_until`,
`reserved_request_id`, `reserved_by`); shipping an issuance does not —
it only sets the named components' status to "issued", leaving every
reservation field as it was on the same document. -/
theorem C4_leaving_reserved_clears (db : DB) :
    (∀ iid it a now db1, release_reservation db iid it a now = Except.ok db1 →
      ∃ i, (db1.collection it).find? (matchesId iid) = some i ∧
        i.status = "ready_to_use" ∧ i.reserved_for = none ∧ i.reserved_until = none ∧
        i.reserved_request_id = none ∧ i.reserved_by = none) ∧
    (∀ role now db1 r,
      auto_release_expired_reservations db role now = Except.ok (db1, r) →
      (∀ i ∈ db.blood_units, isExpiredReserved now i = true →
        releaseItem now i ∈ db1.blood_units) ∧
      (∀ i ∈ db.components, isExpiredReserved now i = true →
        releaseItem now i ∈ db1.components) ∧
      (∀ i : Item, (releaseItem now i).status = "ready_to_use" ∧
        (releaseItem now i).reserved_for = none ∧
        (releaseItem now i).reserved_until = none ∧
        (releaseItem now i).reserved_request_id = none ∧
        (releaseItem now i).reserved_by = none)) ∧
    (∀ iss now db1, ship_issuance db iss now = Except.ok db1 →
      ∀ i ∈ db1.components, ∃ j ∈ db.components, i.id = j.id ∧
        i.reserved_for = j.reserved_for ∧ i.reserved_until = j.reserved_until ∧
        i.reserved_request_id = j.reserved_request_id ∧
        i.reserved_by = j.reserved_by) := by
  refine ⟨?_, ?_, ?_⟩
  · intro iid it a now db1 hcall
    cases hfind : (db.collection it).find? (matchesId iid) with
    | none =>
      simp only [release_reservation, hfind] at hcall
      exact absurd hcall (by simp)
    | some item =>
      simp only [release_reservation, hfind] at hcall
      by_cases hst : (item.status != "reserved") = true
      · rw [if_pos hst] at hcall
        exact absurd hcall (by simp)
      · rw [if_neg hst] at hcall
        simp only [Except.ok.injEq] at hcall
        subst hcall
        refine ⟨{ item with
                   status := "ready_to_use",
                   updated_at := now,
                   reserved_for := none,
                   reserved_until := none,
                   reserved_request_id := none,
                   reserved_by := none,
                   reserved_at := none,
                   reservation_notes := none }, ?_, rfl, rfl, rfl, rfl, rfl⟩
        rw [collection_set_custody, collection_setCollection]
        rw [find?_updateFirst]
        · rw [hfind]
          rfl
        · intro x
          rfl
  · intro role now db1 r hcall
    unfold auto_release_expired_reservations at hcall
    by_cases hrole : (role != "admin" && role != "inventory") = true
    · rw [if_pos hrole] at hcall
      exact absurd hcall (by simp)
    · rw [if_neg hrole] at hcall
      simp only [Except.ok.injEq, Prod.mk.injEq] at hcall
      obtain ⟨hdb, _⟩ := hcall
      subst hdb
      refine ⟨?_, ?_, fun i => ⟨rfl, rfl, rfl, rfl, rfl⟩⟩
      · intro i hi hexp
        have hm : (if isExpiredReserved now i then releaseItem now i else i) ∈
            sweepList now db.blood_units :=
          List.mem_map_of_mem _ hi
        rw [if_pos hexp] at hm
        exact hm
      · intro i hi hexp
        have hm : (if isExpiredReserved now i then releaseItem now i else i) ∈
            sweepList now db.components :=
          List.mem_map_of_mem _ hi
        rw [if_pos hexp] at hm
        exact hm
  · intro iss now db1 hcall
    cases hfind : db.issuances.find? (matchesIssuance iss) with
    | none =>
      simp only [ship_issuance, hfind] at hcall
      exact absurd hcall (by simp)
    | some idoc =>
      simp only [ship_issuance, hfind, Except.ok.injEq] at hcall
      subst hcall
      intro i hi
      exact ship_components_fields idoc.component_ids db.components i hi

theorem C4_leaving_reserved_clears_witness :
    releaseItem 200 compReserved ∈ dbSwept.components :=
  ((C4_leaving_reserved_clears dbReserved).2.1 "admin" 200 dbSwept ⟨0, 1, 1⟩
    (by rfl)).2.1 compReserved (by decide) (by decide)
